import Mathlib

/-!
Verification of the plumplay agent-workflow repository.

The embedding below translates the TypeScript source into Lean:
the state channels and their reducers (`AgentState` annotation in the
graph module), the routing functions (`callToolElse`, the
`ToolMessageUpdateState` conditional edge, `router` with its path
maps in the medplumZod variant, `shouldContinue` in the `EhrAssistant`
variant), the nodes (`runAgentNode`, `approveResourceNode`,
`toolMessageUpdateStateNode`), the three registered tools, and the
graph's edge tables.  The tool-dispatch loop (`ToolNode` from
langgraph/prebuilt) and the executor loop (`graph.invoke` with a
`recursionLimit`) are library code that is not part of the repository
sources; those two are modelled from the specification and are marked
as such in their doc comments.

JavaScript runtime values of type `T | null | undefined` are embedded
as `Option T`: `none` stands for the null/undefined sentinel.  A
partial state update is a record in which every scalar channel is
doubly optional: the outer `Option` records whether the channel is
present in the update at all, the inner one is the channel's nullable
value.
-/

/-- JSON values, the domain of the ECMAScript `JSON.parse` /
`JSON.stringify` pair used by the repository (integer numerals only,
which covers every payload the workflow serializes). -/
inductive Json where
  | null : Json
  | bool (b : Bool) : Json
  | num (n : Int) : Json
  | str (s : String) : Json
  | arr (elems : List Json) : Json
  | obj (members : List (String × Json)) : Json

/-- A tool-call request attached to an assistant turn: the tool's name
and its structured arguments. -/
structure ToolCall where
  name : String
  args : Json

/-- One conversation turn (a langchain `BaseMessage`): an originator
role, an optional name tag, a content payload, and the tool calls the
turn requests (`tool_calls` on `AIMessage`, empty elsewhere). -/
structure Message where
  role : String
  name : String
  content : String
  tool_calls : List ToolCall

/-- `ResourceType.Patient` is the only resource-type literal. -/
inductive ResourceType where
  | Patient : ResourceType
deriving DecidableEq

/-- The `use` enumeration of `humanNameSchema`. -/
inductive NameUse where
  | usual | official | temp | nickname | anonymous | old | maiden
deriving DecidableEq

/-- The `status` enumeration of `narrativeSchema`. -/
inductive NarrativeStatus where
  | generated | extensions | additional | empty
deriving DecidableEq

/-- The `gender` enumeration of `patientCreateSchema`. -/
inductive Gender where
  | male | female | other | unknown
deriving DecidableEq

/-- `humanNameSchema`: use, family and given names. -/
structure HumanName where
  use : NameUse
  family : String
  given : List String
deriving DecidableEq

/-- `narrativeSchema`: status and div. -/
structure Narrative where
  status : NarrativeStatus
  div : String
deriving DecidableEq

/-- `patientCreateSchema`: the draft patient record a `patient_create`
tool call carries (its `resourceType` is the fixed literal and is not
stored). -/
structure PatientCreate where
  text : Narrative
  name : List HumanName
  gender : Gender
  birthDate : String
deriving DecidableEq

/-- `patientSchema` = `patientCreateSchema.extend` with a logical id. -/
structure Patient where
  text : Narrative
  name : List HumanName
  gender : Gender
  birthDate : String
  id : String
deriving DecidableEq

/-- The graph state: the channels of the `AgentState` annotation.
`sender` is carried as a JavaScript runtime value (`Option String`),
because its reducer `(x, y) => y ?? x` distinguishes the
null/undefined sentinel. -/
structure AgentState where
  messages : List Message
  sender : Option String
  patientCreate : Option PatientCreate
  patient : Option Patient
  patientUpdate : Option Patient
  resourceApproved : Option Bool

/-- The `messages` channel reducer: `(x, y) => x.concat(y)`. -/
def messagesReducer (x y : List Message) : List Message :=
  x ++ y

/-- The `sender` channel reducer: `(x, y) => y ?? x` — the incoming
value wins only when it is not the null/undefined sentinel. -/
def senderReducer (x y : Option String) : Option String :=
  match y with
  | some s => some s
  | none => x

/-- The `patientCreate` channel reducer: `(_, y) => y`. -/
def patientCreateReducer (_x y : Option PatientCreate) : Option PatientCreate :=
  y

/-- The `patient` channel reducer: `(_, y) => y`. -/
def patientReducer (_x y : Option Patient) : Option Patient :=
  y

/-- The `patientUpdate` channel reducer: `(_, y) => y`. -/
def patientUpdateReducer (_x y : Option Patient) : Option Patient :=
  y

/-- The `resourceApproved` channel reducer: `(_, y) => y`. -/
def resourceApprovedReducer (_x y : Option Bool) : Option Bool :=
  y

/-- A partial state update as contributed by a node: `messages` lists
the turns to append (empty = channel absent, since concatenation with
the empty list is the identity); each scalar channel is `none` when
absent from the update and `some v` when present with runtime value
`v` (itself possibly the null sentinel). -/
structure StateUpdate where
  messages : List Message := []
  sender : Option (Option String) := none
  patientCreate : Option (Option PatientCreate) := none
  patient : Option (Option Patient) := none
  patientUpdate : Option (Option Patient) := none
  resourceApproved : Option (Option Bool) := none

/-- The empty (no-op) partial update. -/
def emptyUpdate : StateUpdate := {}

/-- The merge step of the state channels: every channel present in the
update is folded in with that channel's reducer; absent channels are
left untouched. -/
def mergeState (s : AgentState) (u : StateUpdate) : AgentState where
  messages := messagesReducer s.messages u.messages
  sender :=
    match u.sender with
    | none => s.sender
    | some y => senderReducer s.sender y
  patientCreate :=
    match u.patientCreate with
    | none => s.patientCreate
    | some y => patientCreateReducer s.patientCreate y
  patient :=
    match u.patient with
    | none => s.patient
    | some y => patientReducer s.patient y
  patientUpdate :=
    match u.patientUpdate with
    | none => s.patientUpdate
    | some y => patientUpdateReducer s.patientUpdate y
  resourceApproved :=
    match u.resourceApproved with
    | none => s.resourceApproved
    | some y => resourceApprovedReducer s.resourceApproved y

/-- `callToolElse(elseStmt)`: the conditional-edge factory attached to
every agent node of the graph.  It reads the last message of the
`messages` channel; when that message carries at least one tool call
it returns the Tool Dispatcher node name `"CallTool"`, otherwise it
defers to the domain routing function `elseStmt`.  An empty history
(undefined last message) falls through to `elseStmt` because of the
optional chaining in `lastMessage?.tool_calls`. -/
def callToolElse (elseStmt : AgentState → String) (state : AgentState) : String :=
  match state.messages.getLast? with
  | some lastMessage =>
      if lastMessage.tool_calls.length > 0 then "CallTool" else elseStmt state
  | none => elseStmt state

/-- `shouldContinue` from the earlier `EhrAssistant` variant: routes to
the `"tools"` node when the last message carries tool calls, else to
the end marker.  It reads `lastMessage.tool_calls` without optional
chaining, so an empty history throws (`none` here). -/
def shouldContinue (state : AgentState) : Option String :=
  (state.messages.getLast?).map fun lastMessage =>
    if lastMessage.tool_calls.length ≠ 0 then "tools" else "__end__"

/-- `runAgentNode`: the shared agent-node body.  If the sender recorded
in state equals this node's own agent name it throws
`NodeInterrupt("Wait for user input")` (`Except.error`); otherwise it
invokes the agent (embedded as the function `agent` from state to the
model's response turn) and returns the spread-state update carrying
the single new turn and `sender = name`. -/
def runAgentNode (state : AgentState) (agent : AgentState → Message)
    (name : String) : Except String StateUpdate :=
  if state.sender = some name then
    Except.error "Wait for user input"
  else
    Except.ok
      { messages := [agent state]
        sender := some (some name)
        patientCreate := some state.patientCreate
        patient := some state.patient
        patientUpdate := some state.patientUpdate
        resourceApproved := some state.resourceApproved }

/-- `approveResourceNode`: promotes the `patientUpdate` channel into
`patient`, clears `patientCreate`, `patientUpdate` and
`resourceApproved` to null, and records itself as sender. -/
def approveResourceNode (state : AgentState) : StateUpdate where
  messages := []
  sender := some (some "Resource approver")
  patientCreate := some none
  patient := some state.patientUpdate
  patientUpdate := some none
  resourceApproved := some none

/-- The conditional edge out of `"ToolMessageUpdateState"`: domain
routing by `sender` and, for the approver, by `resourceApproved`
truthiness and by which draft channel is non-null. -/
def toolMessageUpdateStateRouter (state : AgentState) : String :=
  if state.sender = some "Patient creater" then "DraftResourceApprove"
  else if state.sender = some "Patient updater" then "DraftResourceApprove"
  else if state.sender = some "Draft resource approver" then
    if state.resourceApproved = some true then "ApproveResource"
    else if state.patientCreate.isSome then "PatientCreate"
    else "PatientUpdate"
  else "PatientCreate"

/-- The end marker of the graph. -/
def endMarker : String := "__end__"

/-- The start marker of the graph. -/
def startMarker : String := "__start__"

/-- The routing table of the compiled workflow: the conditional edges
added with `callToolElse` for the three agent nodes, the unconditional
edge `CallTool -> ToolMessageUpdateState`, the conditional edge out of
`ToolMessageUpdateState`, and the start edge.  Unknown node names have
no outgoing edge. -/
def graphRoute (node : String) (state : AgentState) : Option String :=
  if node = "PatientCreate" then
    some (callToolElse (fun _ => "PatientCreate") state)
  else if node = "PatientUpdate" then
    some (callToolElse (fun _ => "PatientUpdate") state)
  else if node = "DraftResourceApprove" then
    some (callToolElse (fun _ => "DraftResourceApprove") state)
  else if node = "CallTool" then
    some "ToolMessageUpdateState"
  else if node = "ToolMessageUpdateState" then
    some (toolMessageUpdateStateRouter state)
  else if node = startMarker then
    some "PatientCreate"
  else
    none

/-- `router` from the medplumZod workflow (the second variant): when
the last message of the `messages` channel carries at least one tool
call it returns the label `"call_tool"`, otherwise the label
`"continue"`; an empty history (undefined last message) falls through
to `"continue"` because of the optional chaining in
`lastMessage?.tool_calls`. -/
def router (state : AgentState) : String :=
  match state.messages.getLast? with
  | some lastMessage =>
      if lastMessage.tool_calls.length > 0 then "call_tool" else "continue"
  | none => "continue"

/-- The label-to-target path mapping that accompanies `router` on a
conditional edge of the medplumZod workflow: the `"call_tool"` label
targets the Tool Dispatcher node `"call_tool"`, and the `"continue"`
label targets the node's domain successor; any other label has no
target. -/
def routerPathMap (continueTarget : String) (label : String) : Option String :=
  if label = "continue" then some continueTarget
  else if label = "call_tool" then some "call_tool"
  else none

/-- The conditional edges of the medplumZod workflow that are attached
with `router`: the agent nodes `"patient-create"` and
`"patient-update"` continue to `"resource-approval"`, and the agent
node `"resource-create"` continues to `"patient-update"`.  (The
`"resource-approval"` node's conditional edge uses a different
function and no path map, so it is not part of this table.) -/
def medplumAgentRoute (node : String) (state : AgentState) : Option String :=
  if node = "patient-create" then
    routerPathMap "resource-approval" (router state)
  else if node = "patient-update" then
    routerPathMap "resource-approval" (router state)
  else if node = "resource-create" then
    routerPathMap "patient-update" (router state)
  else
    none

/-- JSON whitespace. -/
def isJsonWs (c : Char) : Bool :=
  [' ', '\t', '\n', '\r'].contains c

/-- Drop leading JSON whitespace. -/
def skipWs : List Char → List Char
  | c :: cs => if isJsonWs c then skipWs cs else c :: cs
  | [] => []

/-- The escape sequences `JSON.parse` accepts here, paired with the
character each denotes. -/
def escapeTable : List (Char × Char) :=
  [('n', '\n'), ('t', '\t'), ('r', '\r'), ('"', '"'), ('/', '/'), ('\\', '\\')]

/-- Unescape one character after a backslash inside a JSON string.
Escapes outside this set are rejected. -/
def unescapeChar (e : Char) : Option Char :=
  (escapeTable.find? (fun p => p.1 == e)).map (fun p => p.2)

/-- Strip an expected literal keyword from the front of the input. -/
def stripLit : List Char → List Char → Option (List Char)
  | [], cs => some cs
  | l :: ls, c :: cs => if c == l then stripLit ls cs else none
  | _ :: _, [] => none

/-- Scan the body of a JSON string after the opening quote,
accumulating decoded characters in reverse; yields the decoded
characters and the input past the closing quote. -/
def scanString (acc : List Char) : List Char → Option (List Char × List Char)
  | [] => none
  | '"' :: rest => some (acc.reverse, rest)
  | '\\' :: e :: rest => (unescapeChar e).bind fun d => scanString (d :: acc) rest
  | c :: rest => scanString (c :: acc) rest

/-- Numeric value of a digit run. -/
def digitsToNat (ds : List Char) : Nat :=
  ds.foldl (fun acc c => acc * 10 + (c.toNat - 48)) 0

/-- Parse a JSON integer numeral (optional leading minus). -/
def parseNumber (cs : List Char) : Option (Json × List Char) :=
  let signed : Bool × List Char :=
    match cs with
    | '-' :: rest => (true, rest)
    | _ => (false, cs)
  let digits := signed.2.span Char.isDigit
  if digits.1.isEmpty then none
  else
    let n : Int := Int.ofNat (digitsToNat digits.1)
    some (Json.num (if signed.1 then -n else n), digits.2)

mutual

/-- Recursive-descent JSON value parser (fuel-indexed; the fuel
strictly exceeds the nesting depth whenever it exceeds the input
length). -/
def parseValue : Nat → List Char → Option (Json × List Char)
  | 0, _ => none
  | fuel + 1, input =>
      match skipWs input with
      | [] => none
      | '"' :: body =>
          (scanString [] body).map fun pr => (Json.str (String.mk pr.1), pr.2)
      | '[' :: body =>
          (match skipWs body with
            | ']' :: rest => some (Json.arr [], rest)
            | _ => (parseItems fuel [] body).map fun pr => (Json.arr pr.1, pr.2))
      | '\x7b' :: body =>
          (match skipWs body with
            | '\x7d' :: rest => some (Json.obj [], rest)
            | _ => (parseFields fuel [] body).map fun pr => (Json.obj pr.1, pr.2))
      | other =>
          match stripLit "null".data other with
          | some rest => some (Json.null, rest)
          | none =>
              match stripLit "true".data other with
              | some rest => some (Json.bool true, rest)
              | none =>
                  match stripLit "false".data other with
                  | some rest => some (Json.bool false, rest)
                  | none => parseNumber other

/-- Parse the remaining comma-separated elements of a non-empty JSON
array, accumulating in reverse. -/
def parseItems : Nat → List Json → List Char → Option (List Json × List Char)
  | 0, _, _ => none
  | fuel + 1, acc, cs => do
      let (v, r) ← parseValue fuel cs
      match skipWs r with
      | ']' :: r2 => some ((v :: acc).reverse, r2)
      | ',' :: r2 => parseItems fuel (v :: acc) r2
      | _ => none

/-- Parse the remaining comma-separated members of a non-empty JSON
object, accumulating in reverse. -/
def parseFields : Nat → List (String × Json) → List Char →
    Option (List (String × Json) × List Char)
  | 0, _, _ => none
  | fuel + 1, acc, cs =>
      match skipWs cs with
      | '"' :: body => do
          let (k, r) ← scanString [] body
          match skipWs r with
          | ':' :: r2 => do
              let (v, r3) ← parseValue fuel r2
              match skipWs r3 with
              | '\x7d' :: r4 => some (((String.mk k, v) :: acc).reverse, r4)
              | ',' :: r4 => parseFields fuel ((String.mk k, v) :: acc) r4
              | _ => none
          | _ => none
      | _ => none

end

/-- `JSON.parse` on the fragment the workflow exchanges: succeeds
exactly when the whole input is one JSON value surrounded by optional
whitespace. -/
def parseJson (s : String) : Option Json :=
  match parseValue (s.length + 1) s.data with
  | some (j, rest) => if (skipWs rest).isEmpty then some j else none
  | none => none

/-- Escape a character for inclusion in a JSON string literal. -/
def escapeChar (c : Char) : List Char :=
  if c == '"' then ['\\', '"']
  else if c == '\\' then ['\\', '\\']
  else if c == '\n' then ['\\', 'n']
  else if c == '\t' then ['\\', 't']
  else if c == '\r' then ['\\', 'r']
  else [c]

/-- `JSON.stringify` of a string value. -/
def serializeString (s : String) : String :=
  String.mk ('"' :: (s.data.flatMap escapeChar) ++ ['"'])

mutual

/-- `JSON.stringify` (compact form, integer numerals). -/
def serializeJson : Json → String
  | Json.null => "null"
  | Json.bool b => if b then "true" else "false"
  | Json.num n => toString n
  | Json.str s => serializeString s
  | Json.arr xs => "[" ++ serializeElems xs ++ "]"
  | Json.obj kvs => "\x7b" ++ serializeMembers kvs ++ "\x7d"

/-- Comma-separated serialization of array elements. -/
def serializeElems : List Json → String
  | [] => ""
  | [x] => serializeJson x
  | x :: y :: rest => serializeJson x ++ "," ++ serializeElems (y :: rest)

/-- Comma-separated serialization of object members. -/
def serializeMembers : List (String × Json) → String
  | [] => ""
  | [(k, v)] => serializeString k ++ ":" ++ serializeJson v
  | (k, v) :: m :: rest =>
      serializeString k ++ ":" ++ serializeJson v ++ "," ++ serializeMembers (m :: rest)

end

/-- Look up a key in a JSON object's member list (first match). -/
def lookupField (members : List (String × Json)) (key : String) : Option Json :=
  (members.find? (fun kv => kv.1 == key)).map (fun kv => kv.2)

/-- Decode a JSON string. -/
def decodeString : Json → Option String
  | Json.str s => some s
  | _ => none

/-- Decode a JSON boolean. -/
def decodeBool : Json → Option Bool
  | Json.bool b => some b
  | _ => none

/-- Decode a JSON array of strings. -/
def decodeStringList : Json → Option (List String)
  | Json.arr xs => xs.mapM decodeString
  | _ => none

/-- Decode the `use` enumeration of `humanNameSchema`. -/
def decodeNameUse (j : Json) : Option NameUse := do
  let s ← decodeString j
  if s = "usual" then some NameUse.usual
  else if s = "official" then some NameUse.official
  else if s = "temp" then some NameUse.temp
  else if s = "nickname" then some NameUse.nickname
  else if s = "anonymous" then some NameUse.anonymous
  else if s = "old" then some NameUse.old
  else if s = "maiden" then some NameUse.maiden
  else none

/-- Decode the `status` enumeration of `narrativeSchema`. -/
def decodeNarrativeStatus (j : Json) : Option NarrativeStatus := do
  let s ← decodeString j
  if s = "generated" then some NarrativeStatus.generated
  else if s = "extensions" then some NarrativeStatus.extensions
  else if s = "additional" then some NarrativeStatus.additional
  else if s = "empty" then some NarrativeStatus.empty
  else none

/-- Decode the `gender` enumeration of `patientCreateSchema`. -/
def decodeGender (j : Json) : Option Gender := do
  let s ← decodeString j
  if s = "male" then some Gender.male
  else if s = "female" then some Gender.female
  else if s = "other" then some Gender.other
  else if s = "unknown" then some Gender.unknown
  else none

/-- Validate a JSON value against `humanNameSchema`. -/
def decodeHumanName : Json → Option HumanName
  | Json.obj m => do
      let use ← lookupField m "use" >>= decodeNameUse
      let family ← lookupField m "family" >>= decodeString
      let given ← lookupField m "given" >>= decodeStringList
      some { use := use, family := family, given := given }
  | _ => none

/-- Validate a JSON value against `narrativeSchema`. -/
def decodeNarrative : Json → Option Narrative
  | Json.obj m => do
      let status ← lookupField m "status" >>= decodeNarrativeStatus
      let div ← lookupField m "div" >>= decodeString
      some { status := status, div := div }
  | _ => none

/-- Validate a JSON value against `patientCreateSchema` (including the
`resourceType` literal). -/
def decodePatientCreate : Json → Option PatientCreate
  | Json.obj m => do
      let rt ← lookupField m "resourceType" >>= decodeString
      if rt = "Patient" then
        let text ← lookupField m "text" >>= decodeNarrative
        let name ← do
          match lookupField m "name" with
          | some (Json.arr xs) => xs.mapM decodeHumanName
          | _ => none
        let gender ← lookupField m "gender" >>= decodeGender
        let birthDate ← lookupField m "birthDate" >>= decodeString
        some { text := text, name := name, gender := gender, birthDate := birthDate }
      else none
  | _ => none

/-- Validate a JSON value against `patientSchema` (the create schema
extended with the logical id). -/
def decodePatient (j : Json) : Option Patient := do
  let base ← decodePatientCreate j
  match j with
  | Json.obj m => do
      let id ← lookupField m "id" >>= decodeString
      some { text := base.text, name := base.name, gender := base.gender
             birthDate := base.birthDate, id := id }
  | _ => none

/-- Validate the `resource_draft` tool's argument object. -/
def decodeApprovalArgs : Json → Option Bool
  | Json.obj m => lookupField m "approved" >>= decodeBool
  | _ => none

/-- The `patient_create` tool body: stores the validated draft in the
`patientCreate` channel and nulls out the other resource channels. -/
def patientCreateHandler (patientCreate : PatientCreate) : StateUpdate where
  messages := []
  sender := none
  resourceApproved := some none
  patient := some none
  patientCreate := some (some patientCreate)
  patientUpdate := some none

/-- The `patient_update` tool body: stores the validated record in the
`patientUpdate` channel, nulls `resourceApproved` and `patientCreate`
(the `patient` channel is absent from its update). -/
def patientUpdateHandler (patientUpdate : Patient) : StateUpdate where
  messages := []
  sender := none
  resourceApproved := some none
  patient := none
  patientCreate := some none
  patientUpdate := some (some patientUpdate)

/-- The `resource_draft` tool body: records the approval verdict. -/
def resourceApprovalHandler (approved : Bool) : StateUpdate where
  messages := []
  sender := none
  resourceApproved := some (some approved)
  patient := none
  patientCreate := none
  patientUpdate := none

/-- A registered tool: its name and its body guarded by argument
validation (`none` = the arguments fail the declared schema). -/
structure ToolSpec where
  name : String
  run : Json → Option StateUpdate

/-- The `patient_create` tool. -/
def patientCreateToolSpec : ToolSpec where
  name := "patient_create"
  run := fun j => (decodePatientCreate j).map patientCreateHandler

/-- The `patient_update` tool. -/
def patientUpdateToolSpec : ToolSpec where
  name := "patient_update"
  run := fun j => (decodePatient j).map patientUpdateHandler

/-- The `resource_draft` tool. -/
def resourceApprovalToolSpec : ToolSpec where
  name := "resource_draft"
  run := fun j => (decodeApprovalArgs j).map resourceApprovalHandler

/-- The tool registry handed to the Tool Dispatcher in `createGraph`. -/
def toolRegistry : List ToolSpec :=
  [patientCreateToolSpec, patientUpdateToolSpec, resourceApprovalToolSpec]

/-- Name lookup in the tool registry. -/
def findTool (name : String) : Option ToolSpec :=
  toolRegistry.find? (fun t => t.name == name)

/-- Serialize the `use` enumeration. -/
def encodeNameUse : NameUse → Json
  | NameUse.usual => Json.str "usual"
  | NameUse.official => Json.str "official"
  | NameUse.temp => Json.str "temp"
  | NameUse.nickname => Json.str "nickname"
  | NameUse.anonymous => Json.str "anonymous"
  | NameUse.old => Json.str "old"
  | NameUse.maiden => Json.str "maiden"

/-- Serialize the `status` enumeration. -/
def encodeNarrativeStatus : NarrativeStatus → Json
  | NarrativeStatus.generated => Json.str "generated"
  | NarrativeStatus.extensions => Json.str "extensions"
  | NarrativeStatus.additional => Json.str "additional"
  | NarrativeStatus.empty => Json.str "empty"

/-- Serialize the `gender` enumeration. -/
def encodeGender : Gender → Json
  | Gender.male => Json.str "male"
  | Gender.female => Json.str "female"
  | Gender.other => Json.str "other"
  | Gender.unknown => Json.str "unknown"

/-- Serialize a human name. -/
def encodeHumanName (n : HumanName) : Json :=
  Json.obj
    [("use", encodeNameUse n.use), ("family", Json.str n.family),
     ("given", Json.arr (n.given.map Json.str))]

/-- Serialize a narrative. -/
def encodeNarrative (t : Narrative) : Json :=
  Json.obj [("status", encodeNarrativeStatus t.status), ("div", Json.str t.div)]

/-- Serialize a patient draft. -/
def encodePatientCreate (p : PatientCreate) : Json :=
  Json.obj
    [("resourceType", Json.str "Patient"), ("text", encodeNarrative p.text),
     ("name", Json.arr (p.name.map encodeHumanName)),
     ("gender", encodeGender p.gender), ("birthDate", Json.str p.birthDate)]

/-- Serialize a stored patient record. -/
def encodePatient (p : Patient) : Json :=
  Json.obj
    [("resourceType", Json.str "Patient"), ("text", encodeNarrative p.text),
     ("name", Json.arr (p.name.map encodeHumanName)),
     ("gender", encodeGender p.gender), ("birthDate", Json.str p.birthDate),
     ("id", Json.str p.id)]

/-- One member of a serialized update for a channel that is present
(`some`) in the update; absent channels contribute nothing. -/
def encodeField (key : String) (f : α → Json) : Option (Option α) → List (String × Json)
  | none => []
  | some none => [(key, Json.null)]
  | some (some v) => [(key, f v)]

/-- Serialize a partial state update the way `JSON.stringify`
serializes a tool's returned object: present channels only, null for
the cleared sentinel. -/
def encodeUpdate (u : StateUpdate) : Json :=
  Json.obj
    (encodeField "resourceApproved" Json.bool u.resourceApproved ++
     encodeField "patient" encodePatient u.patient ++
     encodeField "patientCreate" encodePatientCreate u.patientCreate ++
     encodeField "patientUpdate" encodePatient u.patientUpdate ++
     encodeField "sender" Json.str u.sender)

/-- The tool-result turn for a request naming an unregistered tool:
a synthetic failure message naming the unknown tool. -/
def unknownToolTurn (c : ToolCall) : Message where
  role := "tool"
  name := c.name
  content := "Error: " ++ c.name ++ " is not a valid tool, try one of the registered tools."
  tool_calls := []

/-- The tool-result turn for a request whose arguments fail the tool's
declared schema. -/
def validationFailTurn (c : ToolCall) : Message where
  role := "tool"
  name := c.name
  content := "Error: the arguments of " ++ c.name ++ " failed schema validation."
  tool_calls := []

/-- The tool-result turn for a successfully executed request: the
serialized summary of the handler's partial state update. -/
def successTurn (c : ToolCall) (u : StateUpdate) : Message where
  role := "tool"
  name := c.name
  content := serializeJson (encodeUpdate u)
  tool_calls := []

/-- The single result turn produced for one tool-call request. -/
def turnFor (c : ToolCall) : Message :=
  match findTool c.name with
  | none => unknownToolTurn c
  | some t =>
      match t.run c.args with
      | none => validationFailTurn c
      | some u => successTurn c u

/-- Sequential fold of two partial updates: turns concatenate in
order, and for every scalar channel the later entry wins when present. -/
def combineUpdate (a b : StateUpdate) : StateUpdate where
  messages := a.messages ++ b.messages
  sender := b.sender.orElse fun _ => a.sender
  patientCreate := b.patientCreate.orElse fun _ => a.patientCreate
  patient := b.patient.orElse fun _ => a.patient
  patientUpdate := b.patientUpdate.orElse fun _ => a.patientUpdate
  resourceApproved := b.resourceApproved.orElse fun _ => a.resourceApproved

/-- The contribution of one tool-call request to the batch update:
the handler's folded channels plus its single result turn, or just a
synthetic failure turn for an unknown tool or invalid arguments. -/
def callUpdate (c : ToolCall) : StateUpdate :=
  match findTool c.name with
  | none => { messages := [unknownToolTurn c] }
  | some t =>
      match t.run c.args with
      | none => { messages := [validationFailTurn c] }
      | some u => { u with messages := u.messages ++ [successTurn c u] }

/-- Modelled from the spec: the dispatch loop of the Tool Dispatcher
(the prebuilt `ToolNode` class lives in langgraph and is not among the
repository sources).  The requests of the batch are processed in the
order they appear; each contributes its folded channels and one result
turn, and the whole batch is returned as a single partial update. -/
def dispatchToolCalls : List ToolCall → StateUpdate
  | [] => emptyUpdate
  | c :: rest => combineUpdate (callUpdate c) (dispatchToolCalls rest)

/-- Modelled from the spec: the Tool Dispatcher node bound to the
three registered tools.  It reads the most recent turn of the
`messages` channel and dispatches its tool-call requests; with no last
turn (or none requested) it is a no-op update. -/
def toolNode (state : AgentState) : StateUpdate :=
  match state.messages.getLast? with
  | none => emptyUpdate
  | some lastMessage => dispatchToolCalls lastMessage.tool_calls

/-- `toolMessageUpdateStateNode`: returns `JSON.parse` of the content
of the last message; a missing last message or content that is not
valid JSON throws (`Except.error`). -/
def toolMessageUpdateStateNode (state : AgentState) : Except String Json :=
  match state.messages.getLast? with
  | none => Except.error "TypeError: cannot read properties of undefined"
  | some lastMessage =>
      match parseJson lastMessage.content with
      | some j => Except.ok j
      | none => Except.error ("SyntaxError: unexpected token in JSON: " ++ lastMessage.content)

/-- Read a serialized partial state update back from JSON: the known
channels present among the object's members, each either null or a
value of the channel's type. -/
def decodeUpdate : Json → Option StateUpdate
  | Json.obj m => do
      let readField {α : Type} (key : String) (f : Json → Option α) :
          Option (Option (Option α)) :=
        match lookupField m key with
        | none => some none
        | some Json.null => some (some none)
        | some j => (f j).map (fun v => some (some v))
      let resourceApproved ← readField "resourceApproved" decodeBool
      let patient ← readField "patient" decodePatient
      let patientCreate ← readField "patientCreate" decodePatientCreate
      let patientUpdate ← readField "patientUpdate" decodePatient
      let sender ← readField "sender" decodeString
      some { messages := [], sender := sender, patientCreate := patientCreate
             patient := patient, patientUpdate := patientUpdate
             resourceApproved := resourceApproved }
  | _ => none

/-- What one node execution yields: a suspend (interrupt) signal or a
partial state update. -/
inductive NodeResult where
  | suspend (msg : String)
  | update (u : StateUpdate)

/-- The fatal failure taxonomy of a run: the step-limit failure is a
distinct case from node (model) and backend (tool) errors. -/
inductive RunError where
  | stepLimitExceeded
  | nodeFatal (msg : String)
  | backendFailure (msg : String)
deriving DecidableEq

/-- The outcome of one resume-to-completion-or-suspend invocation. -/
inductive RunOutcome where
  | completed (s : AgentState)
  | suspended (s : AgentState)
  | failed (e : RunError)

/-- Modelled from the spec: the executor loop (`graph.invoke` with a
configured `recursionLimit`, library code not among the repository
sources).  Each step runs the active node, merges its update through
the channel reducers, asks the routing function for the next node and
repeats; the end marker completes the run, a suspend signal returns
control, and an exhausted step budget fails with the step-limit error.
The second component counts the node executions performed. -/
def runLoop (nodes : String → AgentState → NodeResult)
    (route : String → AgentState → String) :
    Nat → String → AgentState → RunOutcome × Nat
  | 0, _, _ => (RunOutcome.failed RunError.stepLimitExceeded, 0)
  | Nat.succ budget, node, state =>
      match nodes node state with
      | NodeResult.suspend _ => (RunOutcome.suspended state, 1)
      | NodeResult.update u =>
          let merged := mergeState state u
          let next := route node merged
          if next = endMarker then (RunOutcome.completed merged, 1)
          else
            let tail := runLoop nodes route budget next merged
            (tail.1, tail.2 + 1)

/-- A concrete narrative for witnesses. -/
def sampleNarrative : Narrative where
  status := NarrativeStatus.generated
  div := "summary"

/-- A concrete human name for witnesses. -/
def sampleName : HumanName where
  use := NameUse.official
  family := "Doe"
  given := ["Jo"]

/-- A concrete patient draft for witnesses. -/
def samplePatientCreate : PatientCreate where
  text := sampleNarrative
  name := [sampleName]
  gender := Gender.female
  birthDate := "2000-01-01"

/-- An assistant turn carrying the given tool-call requests. -/
def mkAIMessage (toolCalls : List ToolCall) : Message where
  role := "ai"
  name := ""
  content := ""
  tool_calls := toolCalls

/-- A tool-result turn with the given content. -/
def mkToolMessage (content : String) : Message where
  role := "tool"
  name := ""
  content := content
  tool_calls := []

/-- The default-channel state with an empty history. -/
def baseState : AgentState where
  messages := []
  sender := some "user"
  patientCreate := none
  patient := none
  patientUpdate := none
  resourceApproved := none

/-- A state whose last turn is a tool-result turn with the given
content. -/
def stateWithLastContent (content : String) : AgentState :=
  { baseState with messages := [mkToolMessage content] }

/-- C1 (tool-call precedence): for every state whose most recent
message carries at least one tool-call request, the routing function
attached to every agent node — `callToolElse` in the first variant,
instantiated on its three agent nodes, and `router` in the second
variant, attached with its path map to the three agent nodes that use
it — selects the Tool Dispatcher node (`"CallTool"` / `"call_tool"`)
as the next node, regardless of the domain routing function; when the
most recent message carries no tool-call request, the domain routing
function's result is used instead (`elseStmt` in the first variant,
the node's `"continue"` target in the second). -/
theorem tool_call_precedence (elseStmt : AgentState → String)
    (state : AgentState) (lastMessage : Message)
    (h : state.messages.getLast? = some lastMessage) :
    (lastMessage.tool_calls ≠ [] →
      callToolElse elseStmt state = "CallTool"
      ∧ graphRoute "PatientCreate" state = some "CallTool"
      ∧ graphRoute "PatientUpdate" state = some "CallTool"
      ∧ graphRoute "DraftResourceApprove" state = some "CallTool"
      ∧ router state = "call_tool"
      ∧ medplumAgentRoute "patient-create" state = some "call_tool"
      ∧ medplumAgentRoute "patient-update" state = some "call_tool"
      ∧ medplumAgentRoute "resource-create" state = some "call_tool")
    ∧ (lastMessage.tool_calls = [] →
      callToolElse elseStmt state = elseStmt state
      ∧ router state = "continue"
      ∧ medplumAgentRoute "patient-create" state = some "resource-approval"
      ∧ medplumAgentRoute "patient-update" state = some "resource-approval"
      ∧ medplumAgentRoute "resource-create" state = some "patient-update") := by
  constructor
  · intro hne
    have hpos : 0 < lastMessage.tool_calls.length := List.length_pos.mpr hne
    refine ⟨?_, ?_, ?_, ?_, ?_, ?_, ?_, ?_⟩ <;>
      simp [callToolElse, graphRoute, router, routerPathMap,
        medplumAgentRoute, h, hpos]
  · intro hemp
    refine ⟨?_, ?_, ?_, ?_, ?_⟩ <;>
      simp [callToolElse, router, routerPathMap, medplumAgentRoute, h, hemp]

/-- C1 witness: with a concrete state whose last turn requests
`patient_create`, the agent nodes of both variants route to their
Tool Dispatcher; with no requested tool call, the domain results are
used. -/
theorem tool_call_precedence_witness :
    callToolElse (fun _ => "PatientCreate")
        { baseState with messages := [mkAIMessage [⟨"patient_create", Json.null⟩]] }
      = "CallTool"
    ∧ medplumAgentRoute "patient-create"
        { baseState with messages := [mkAIMessage [⟨"patient_create", Json.null⟩]] }
      = some "call_tool"
    ∧ callToolElse (fun _ => "PatientCreate")
        { baseState with messages := [mkAIMessage []] }
      = "PatientCreate"
    ∧ medplumAgentRoute "patient-create"
        { baseState with messages := [mkAIMessage []] }
      = some "resource-approval" := by
  have hA := tool_call_precedence (fun _ => "PatientCreate")
    { baseState with messages := [mkAIMessage [⟨"patient_create", Json.null⟩]] }
    (mkAIMessage [⟨"patient_create", Json.null⟩]) rfl
  have hB := tool_call_precedence (fun _ => "PatientCreate")
    { baseState with messages := [mkAIMessage []] }
    (mkAIMessage []) rfl
  obtain ⟨c1, -, -, -, -, m1, -, -⟩ := hA.1 (by simp [mkAIMessage])
  obtain ⟨c2, -, m2, -, -⟩ := hB.2 rfl
  exact ⟨c1, m1, c2, m2⟩

/-- C2 (suspend on self-talk): `runAgentNode` raises the interrupt
signal exactly when the recorded sender equals the node's own agent
name; otherwise it invokes the agent and returns the spread-state
update recording the new turn and itself as sender. -/
theorem suspend_on_self_talk (state : AgentState)
    (agent : AgentState → Message) (name : String) :
    (runAgentNode state agent name = Except.error "Wait for user input"
      ↔ state.sender = some name)
    ∧ (state.sender ≠ some name →
      runAgentNode state agent name = Except.ok
        { messages := [agent state]
          sender := some (some name)
          patientCreate := some state.patientCreate
          patient := some state.patient
          patientUpdate := some state.patientUpdate
          resourceApproved := some state.resourceApproved }) := by
  by_cases h : state.sender = some name <;> simp [runAgentNode, h]

/-- C2 witness: the interrupt fires when the last speaker is the node
itself, and the agent runs when it is not. -/
theorem suspend_on_self_talk_witness :
    runAgentNode { baseState with sender := some "Patient creater" }
        (fun _ => mkAIMessage []) "Patient creater"
      = Except.error "Wait for user input"
    ∧ runAgentNode baseState (fun _ => mkAIMessage []) "Patient creater"
      = Except.ok
        { messages := [mkAIMessage []]
          sender := some (some "Patient creater")
          patientCreate := some none
          patient := some none
          patientUpdate := some none
          resourceApproved := some none } := by
  constructor
  · exact (suspend_on_self_talk _ (fun _ => mkAIMessage []) "Patient creater").1.mpr rfl
  · exact (suspend_on_self_talk baseState (fun _ => mkAIMessage []) "Patient creater").2
      (by simp [baseState])

/-- One merge step appends the update's turns after the old history. -/
theorem mergeState_messages (s : AgentState) (u : StateUpdate) :
    (mergeState s u).messages = s.messages ++ u.messages := rfl

/-- Across a sequence of merge steps the history is the old history
followed by some list of appended turns. -/
theorem foldl_mergeState_messages (us : List StateUpdate) (s : AgentState) :
    ∃ t, (us.foldl mergeState s).messages = s.messages ++ t := by
  induction us generalizing s with
  | nil => exact ⟨[], by simp⟩
  | cons u rest ih =>
      obtain ⟨t, ht⟩ := ih (mergeState s u)
      refine ⟨u.messages ++ t, ?_⟩
      simp only [List.foldl_cons, ht, mergeState_messages, List.append_assoc]

/-- C3 (append-only history): the `messages` reducer is concatenation
of the incoming turns after the old ones, so across any sequence of
merge steps the history's length never decreases and every previously
recorded turn remains present and unchanged at its original index. -/
theorem append_only_history :
    (∀ x y, messagesReducer x y = x ++ y)
    ∧ ∀ (us : List StateUpdate) (s : AgentState),
        s.messages.length ≤ (us.foldl mergeState s).messages.length
        ∧ ∀ i, i < s.messages.length →
            (us.foldl mergeState s).messages[i]? = s.messages[i]? := by
  refine ⟨fun x y => rfl, fun us s => ?_⟩
  obtain ⟨t, ht⟩ := foldl_mergeState_messages us s
  rw [ht]
  constructor
  · simp
  · intro i hi
    exact List.getElem?_append_left hi

/-- C3 witness: a concrete two-update sequence keeps the seeded turn
at index zero and does not shrink the history. -/
theorem append_only_history_witness :
    ([{ messages := [mkAIMessage []] },
      approveResourceNode baseState].foldl mergeState
        (stateWithLastContent "hello")).messages[0]?
      = (stateWithLastContent "hello").messages[0]?
    ∧ (stateWithLastContent "hello").messages.length ≤
      ([{ messages := [mkAIMessage []] },
        approveResourceNode baseState].foldl mergeState
          (stateWithLastContent "hello")).messages.length := by
  have h := append_only_history.2
    [{ messages := [mkAIMessage []] }, approveResourceNode baseState]
    (stateWithLastContent "hello")
  exact ⟨h.2 0 (by decide), h.1⟩

/-- C4 counterexample: the `sender` reducer does not return the
incoming value when the incoming value is the explicit cleared
sentinel — on old value `"user"` and incoming `null` it keeps
`"user"`, so the claim that the incoming value always wins on every
scalar channel fails at this input. -/
theorem sender_reducer_keeps_old :
    senderReducer (some "user") none = some "user"
    ∧ senderReducer (some "user") none ≠ none := by
  exact ⟨rfl, by simp [senderReducer]⟩

/-- C4 (amended): for the `patientCreate`, `patient`, `patientUpdate`
and `resourceApproved` channels the incoming value always wins,
including the explicit cleared sentinel; the `sender` channel's
reducer `(x, y) => y ?? x` lets a non-null incoming value win but
keeps the old value when the incoming value is null/undefined, so the
sender channel cannot be deliberately nulled out. -/
theorem replace_or_clear_amended :
    (∀ x y, patientCreateReducer x y = y)
    ∧ (∀ x y, patientReducer x y = y)
    ∧ (∀ x y, patientUpdateReducer x y = y)
    ∧ (∀ x y, resourceApprovedReducer x y = y)
    ∧ (∀ x s, senderReducer x (some s) = some s)
    ∧ (∀ x, senderReducer x none = x) := by
  exact ⟨fun a b => rfl, fun a b => rfl, fun a b => rfl, fun a b => rfl,
    fun a v => rfl, fun a => rfl⟩

/-- A tool found by name lookup is one of the registered tools. -/
theorem findTool_mem {n : String} {t : ToolSpec} (h : findTool n = some t) :
    t ∈ toolRegistry :=
  List.mem_of_find?_eq_some h

/-- No registered tool body contributes turns of its own; result turns
come only from the dispatcher's per-request append. -/
theorem registry_run_no_turns {t : ToolSpec} (ht : t ∈ toolRegistry) {j : Json}
    {u : StateUpdate} (h : t.run j = some u) : u.messages = [] := by
  simp only [toolRegistry, List.mem_cons, List.not_mem_nil, or_false] at ht
  rcases ht with h1 | h1 | h1 <;> subst h1 <;>
    simp only [patientCreateToolSpec, patientUpdateToolSpec,
      resourceApprovalToolSpec, Option.map_eq_some'] at h <;>
    obtain ⟨p, _, hu⟩ := h <;> rw [← hu] <;> rfl

/-- Each request contributes exactly its single result turn. -/
theorem callUpdate_messages (c : ToolCall) :
    (callUpdate c).messages = [turnFor c] := by
  cases hf : findTool c.name with
  | none => simp [callUpdate, turnFor, hf]
  | some t =>
      cases hr : t.run c.args with
      | none => simp [callUpdate, turnFor, hf, hr]
      | some u =>
          have hu := registry_run_no_turns (findTool_mem hf) hr
          simp [callUpdate, turnFor, hf, hr, hu]

/-- The dispatcher's batch update carries one result turn per request,
in request order. -/
theorem dispatchToolCalls_messages (calls : List ToolCall) :
    (dispatchToolCalls calls).messages = calls.map turnFor := by
  induction calls with
  | nil => rfl
  | cons c rest ih =>
      simp [dispatchToolCalls, combineUpdate, callUpdate_messages, ih]

/-- C5 (unknown-tool local recovery, atomic multi-tool commit): the
Tool Dispatcher processes the N requests of the most recent turn in
the order they appear, producing exactly one result turn per request
(the i-th turn belongs to the i-th request); a request naming an
unregistered tool yields a synthetic failure turn naming that tool
while the remaining requests are still processed; and the state
resulting from the dispatcher step reflects all N folded results or
failure turns applied in one merge, never a partial subset. -/
theorem tool_dispatcher_batch (state : AgentState) (lastMessage : Message)
    (h : state.messages.getLast? = some lastMessage) :
    (toolNode state).messages.length = lastMessage.tool_calls.length
    ∧ (∀ i, i < lastMessage.tool_calls.length →
        (toolNode state).messages[i]? = (lastMessage.tool_calls[i]?).map turnFor)
    ∧ (∀ c, findTool c.name = none → turnFor c = unknownToolTurn c)
    ∧ (mergeState state (toolNode state)).messages
        = state.messages ++ lastMessage.tool_calls.map turnFor := by
  have ht : toolNode state = dispatchToolCalls lastMessage.tool_calls := by
    simp [toolNode, h]
  refine ⟨?_, ?_, ?_, ?_⟩
  · rw [ht, dispatchToolCalls_messages]
    simp
  · intro i _
    rw [ht, dispatchToolCalls_messages, List.getElem?_map]
  · intro c hc
    simp [turnFor, hc]
  · rw [mergeState_messages, ht, dispatchToolCalls_messages]

/-- A request naming an unregistered tool, for the C5 witness. -/
def batchCallA : ToolCall := ⟨"foo", Json.null⟩

/-- A well-formed `resource_draft` request, for the C5 witness. -/
def batchCallB : ToolCall := ⟨"resource_draft", Json.obj [("approved", Json.bool true)]⟩

/-- A state whose last turn requests an unknown tool and then a
registered one. -/
def batchState : AgentState :=
  { baseState with messages := [mkAIMessage [batchCallA, batchCallB]] }

/-- C5 witness: on a concrete two-request batch whose first request
names an unknown tool, the dispatcher emits the failure turn at index
zero and still processes the second request. -/
theorem tool_dispatcher_batch_witness :
    (toolNode batchState).messages.length = 2
    ∧ (toolNode batchState).messages[0]? = some (unknownToolTurn batchCallA)
    ∧ (toolNode batchState).messages[1]?
        = some (successTurn batchCallB (resourceApprovalHandler true)) := by
  have h := tool_dispatcher_batch batchState (mkAIMessage [batchCallA, batchCallB]) rfl
  refine ⟨h.1, ?_, ?_⟩
  · exact (h.2.1 0 (by decide)).trans (by rfl)
  · exact (h.2.1 1 (by decide)).trans (by rfl)

/-- C6 (dispatcher-to-apply routing): the edge out of the Tool
Dispatcher node `"CallTool"` is unconditional — for every state the
routing table targets the single apply-tool-results node
`"ToolMessageUpdateState"`, whose conditional edge then continues
domain routing. -/
theorem dispatcher_routes_to_apply :
    ∀ state : AgentState,
      graphRoute "CallTool" state = some "ToolMessageUpdateState" := by
  intro state
  simp [graphRoute]

/-- C7 (step budget), against the executor loop modelled from the
spec: for every graph whose routing function always loops a node back
to itself (and whose nodes keep returning updates rather than
suspending), an invocation with a configured step budget fails with
the step-limit error after at most that many node executions — the
loop is a total function, so it never runs forever — and the
step-limit error is distinct from node (model) and backend (tool)
failures. -/
theorem step_budget_exceeded (nodes : String → AgentState → NodeResult)
    (route : String → AgentState → String)
    (hroute : ∀ n s, route n s = n)
    (hnodes : ∀ n s, ∃ u, nodes n s = NodeResult.update u)
    (node : String) (hnode : node ≠ endMarker)
    (budget : Nat) (state : AgentState) :
    (runLoop nodes route budget node state).1
        = RunOutcome.failed RunError.stepLimitExceeded
    ∧ (runLoop nodes route budget node state).2 ≤ budget
    ∧ (∀ m, RunError.stepLimitExceeded ≠ RunError.nodeFatal m)
    ∧ (∀ m, RunError.stepLimitExceeded ≠ RunError.backendFailure m) := by
  refine ⟨?_, ?_, fun m h => RunError.noConfusion h,
    fun m h => RunError.noConfusion h⟩ <;>
  · induction budget generalizing state with
    | zero => simp [runLoop]
    | succ b ih =>
        obtain ⟨u, hu⟩ := hnodes node state
        simp only [runLoop, hu, hroute, hnode, if_neg hnode]
        first
        | exact ih (mergeState state u)
        | exact Nat.succ_le_succ (ih (mergeState state u))

/-- C7 witness: a concrete self-looping graph with budget 3 fails with
the step-limit error in at most 3 node executions. -/
theorem step_budget_exceeded_witness :
    (runLoop (fun _ _ => NodeResult.update emptyUpdate) (fun n _ => n)
        3 "PatientCreate" baseState).1
      = RunOutcome.failed RunError.stepLimitExceeded
    ∧ (runLoop (fun _ _ => NodeResult.update emptyUpdate) (fun n _ => n)
        3 "PatientCreate" baseState).2 ≤ 3 := by
  have h := step_budget_exceeded (fun _ _ => NodeResult.update emptyUpdate)
    (fun n _ => n) (fun _ _ => rfl) (fun _ _ => ⟨emptyUpdate, rfl⟩)
    "PatientCreate" (by decide) 3 baseState
  exact ⟨h.1, h.2.1⟩

/-- C8 (approval promotes the update draft, discarding the creation
draft): `approveResourceNode` sets the `patient` channel to the
current `patientUpdate` value — never to `patientCreate` — and clears
`patientCreate`, `patientUpdate` and `resourceApproved` to null; so
for any state reaching it via the creation path (`patientUpdate`
null, `patientCreate` non-null) the promoted `patient` channel is
null and the approved draft in `patientCreate` is discarded. -/
theorem approve_resource_promotes_update (state : AgentState) :
    ((approveResourceNode state).patient = some state.patientUpdate
      ∧ (approveResourceNode state).patientCreate = some none
      ∧ (approveResourceNode state).patientUpdate = some none
      ∧ (approveResourceNode state).resourceApproved = some none
      ∧ (approveResourceNode state).sender = some (some "Resource approver"))
    ∧ ((mergeState state (approveResourceNode state)).patient = state.patientUpdate
      ∧ (mergeState state (approveResourceNode state)).patientCreate = none
      ∧ (mergeState state (approveResourceNode state)).patientUpdate = none
      ∧ (mergeState state (approveResourceNode state)).resourceApproved = none)
    ∧ (state.patientUpdate = none →
      (mergeState state (approveResourceNode state)).patient = none
      ∧ (approveResourceNode state).patient = some none) := by
  refine ⟨⟨rfl, rfl, rfl, rfl, rfl⟩, ⟨rfl, rfl, rfl, rfl⟩, fun h => ?_⟩
  constructor
  · show patientReducer state.patient state.patientUpdate = none
    rw [patientReducer, h]
  · show some state.patientUpdate = some none
    rw [h]

/-- C8 witness: on a concrete state on the creation path (a non-null
`patientCreate` draft, null `patientUpdate`), the approval node
promotes null into `patient` and the approved draft is discarded. -/
theorem approve_resource_promotes_update_witness :
    (mergeState { baseState with patientCreate := some samplePatientCreate }
        (approveResourceNode
          { baseState with patientCreate := some samplePatientCreate })).patient
      = none
    ∧ (mergeState { baseState with patientCreate := some samplePatientCreate }
        (approveResourceNode
          { baseState with patientCreate := some samplePatientCreate })).patientCreate
      = none := by
  have h := approve_resource_promotes_update
    { baseState with patientCreate := some samplePatientCreate }
  exact ⟨(h.2.2 rfl).1, h.2.1.2.1⟩

/-- C9 (apply-node JSON behaviour): `toolMessageUpdateStateNode`
returns `JSON.parse` of the content of the last message in the
history — it yields a state update exactly when that content parses as
JSON, and throws on any other content; concretely, the plain-text
failure turn the dispatcher synthesizes for an unknown tool makes the
node throw (so the failure branch of the apply step is reachable),
while the serialized update of the `resource_draft` tool parses back
to exactly that tool's partial state update. -/
theorem tool_message_update_json :
    (∀ (state : AgentState) (lastMessage : Message),
      state.messages.getLast? = some lastMessage →
        (∃ j, parseJson lastMessage.content = some j
          ∧ toolMessageUpdateStateNode state = Except.ok j)
        ∨ (parseJson lastMessage.content = none
          ∧ toolMessageUpdateStateNode state
            = Except.error
              ("SyntaxError: unexpected token in JSON: " ++ lastMessage.content)))
    ∧ toolMessageUpdateStateNode
        (stateWithLastContent (unknownToolTurn ⟨"foo", Json.null⟩).content)
      = Except.error
          ("SyntaxError: unexpected token in JSON: "
            ++ (unknownToolTurn ⟨"foo", Json.null⟩).content)
    ∧ toolMessageUpdateStateNode
        (stateWithLastContent (serializeJson (encodeUpdate (resourceApprovalHandler true))))
      = Except.ok (Json.obj [("resourceApproved", Json.bool true)])
    ∧ decodeUpdate (Json.obj [("resourceApproved", Json.bool true)])
      = some (resourceApprovalHandler true) := by
  refine ⟨?_, by rfl, by rfl, by rfl⟩
  intro state lastMessage h
  cases hp : parseJson lastMessage.content with
  | none =>
      right
      refine ⟨rfl, ?_⟩
      simp [toolMessageUpdateStateNode, h, hp]
  | some j =>
      left
      refine ⟨j, rfl, ?_⟩
      simp [toolMessageUpdateStateNode, h, hp]

/-- C9 witness: with a concrete last turn whose content is the JSON
text `null`, the node yields a parsed value. -/
theorem tool_message_update_json_witness :
    ∃ j, parseJson "null" = some j
      ∧ toolMessageUpdateStateNode (stateWithLastContent "null") = Except.ok j := by
  have h := tool_message_update_json.1 (stateWithLastContent "null")
    (mkToolMessage "null") rfl
  rcases h with h | h
  · exact h
  · have hv : parseJson "null" = some Json.null := rfl
    rw [show (mkToolMessage "null").content = "null" from rfl, hv] at h
    exact Option.noConfusion h.1
